import Mathlib

/-!
Verification development for the zfs_exporter pool-metrics core.

The definitions below are a shallow embedding of the two source files
`src/zfs/pool.go` and `src/collector/pool.go`:

* `PoolKind` / `PoolStatus` mirror the Go string-typed enums.
* `MapSS` models Go's `map[string]string` as an association list whose
  `insert` replaces the binding of an existing key in place (so keys stay
  unique and last write wins, matching Go map assignment).
* `processLine` and `getFieldsPerRecord` embed the methods of
  `poolPropertiesImpl` in `src/zfs/pool.go`.
* The collector-side definitions embed `poolCollector.update`,
  `poolCollector.updatePoolMetrics` and `newPoolCollector` from
  `src/collector/pool.go`; the collaborators that live outside the two
  source files (the property store's `find`, `property.push`, the health
  transform) are modelled from the specification, as marked in their
  doc comments, with the externally visible calls into them recorded as
  an explicit event trace.
-/

set_option autoImplicit false

/-- PoolKind mirrors `type PoolKind string` from src/zfs/pool.go. -/
abbrev PoolKind := String

/-- PoolStatus mirrors `type PoolStatus string` from src/zfs/pool.go. -/
abbrev PoolStatus := String

/-- PoolProps enum entry (src/zfs/pool.go line 18). -/
def PoolProps : PoolKind := "properties"

/-- PoolIostat enum entry (src/zfs/pool.go line 20). -/
def PoolIostat : PoolKind := "iostats"

/-- PoolOnline enum entry (src/zfs/pool.go line 25). -/
def PoolOnline : PoolStatus := "ONLINE"

/-- PoolDegraded enum entry (src/zfs/pool.go line 27). -/
def PoolDegraded : PoolStatus := "DEGRADED"

/-- PoolFaulted enum entry (src/zfs/pool.go line 29). -/
def PoolFaulted : PoolStatus := "FAULTED"

/-- PoolOffline enum entry (src/zfs/pool.go line 31). -/
def PoolOffline : PoolStatus := "OFFLINE"

/-- PoolUnavail enum entry (src/zfs/pool.go line 33). -/
def PoolUnavail : PoolStatus := "UNAVAIL"

/-- PoolRemoved enum entry (src/zfs/pool.go line 35). -/
def PoolRemoved : PoolStatus := "REMOVED"

/-- PoolSuspended enum entry (src/zfs/pool.go line 37). -/
def PoolSuspended : PoolStatus := "SUSPENDED"

/-- MapSS models Go's `map[string]string`: an association list with unique
keys, where assignment to an existing key replaces its value in place. -/
abbrev MapSS := List (String × String)

/-- Lookup of a key in a `MapSS`, mirroring Go map indexing `m[k]`. -/
def MapSS.lookup (m : MapSS) (k : String) : Option String :=
  match m with
  | [] => none
  | (k', v) :: rest => if k' = k then some v else MapSS.lookup rest k

/-- Assignment `m[k] = v` on a Go map: replace the binding if the key is
present, otherwise append a fresh binding. -/
def MapSS.insert (m : MapSS) (k v : String) : MapSS :=
  match m with
  | [] => [(k, v)]
  | (k', v') :: rest =>
      if k' = k then (k, v) :: rest else (k', v') :: MapSS.insert rest k v

/-- Key list of a `MapSS`. -/
def MapSS.keys (m : MapSS) : List String := m.map Prod.fst

@[simp] theorem MapSS.lookup_nil (k : String) : MapSS.lookup [] k = none := rfl

@[simp] theorem MapSS.lookup_cons (k' v k : String) (rest : MapSS) :
    MapSS.lookup ((k', v) :: rest) k =
      if k' = k then some v else MapSS.lookup rest k := rfl

@[simp] theorem MapSS.keys_nil : MapSS.keys [] = [] := rfl

@[simp] theorem MapSS.keys_cons (k v : String) (rest : MapSS) :
    MapSS.keys ((k, v) :: rest) = k :: MapSS.keys rest := rfl

theorem MapSS.lookup_insert_self (m : MapSS) (k v : String) :
    (m.insert k v).lookup k = some v := by
  induction m with
  | nil => simp [MapSS.insert, MapSS.lookup]
  | cons p rest ih =>
      obtain ⟨k', v'⟩ := p
      by_cases h : k' = k
      · simp [MapSS.insert, MapSS.lookup, h]
      · simp [MapSS.insert, MapSS.lookup, h, ih]

theorem MapSS.lookup_insert_ne (m : MapSS) (k v k' : String) (h : k' ≠ k) :
    (m.insert k v).lookup k' = m.lookup k' := by
  have hne : k ≠ k' := Ne.symm h
  induction m with
  | nil => simp [MapSS.insert, hne]
  | cons p rest ih =>
      obtain ⟨k₀, v₀⟩ := p
      by_cases h₀ : k₀ = k
      · subst h₀
        simp [MapSS.insert, hne]
      · by_cases h₁ : k₀ = k'
        · simp [MapSS.insert, h, h₀, h₁]
        · simp [MapSS.insert, h₀, h₁, ih]

theorem MapSS.keys_insert_mem (m : MapSS) (k v : String) (h : k ∈ m.keys) :
    (m.insert k v).keys = m.keys := by
  induction m with
  | nil => simp at h
  | cons p rest ih =>
      obtain ⟨k₀, v₀⟩ := p
      by_cases h₀ : k₀ = k
      · simp [MapSS.insert, h₀]
      · have hk : k ∈ MapSS.keys rest := by
          rcases List.mem_cons.mp (by simpa using h) with h₁ | h₁
          · exact absurd h₁.symm h₀
          · exact h₁
        simp [MapSS.insert, h₀, ih hk]

theorem MapSS.keys_insert_not_mem (m : MapSS) (k v : String) (h : k ∉ m.keys) :
    (m.insert k v).keys = m.keys ++ [k] := by
  induction m with
  | nil => simp [MapSS.insert]
  | cons p rest ih =>
      obtain ⟨k₀, v₀⟩ := p
      have h' : ¬(k = k₀ ∨ k ∈ MapSS.keys rest) := by simpa using h
      push_neg at h'
      have hne : k₀ ≠ k := fun hh => h'.1 hh.symm
      simp [MapSS.insert, hne, ih h'.2]

theorem MapSS.keys_insert_nodup (m : MapSS) (k v : String)
    (h : m.keys.Nodup) : (m.insert k v).keys.Nodup := by
  by_cases hk : k ∈ m.keys
  · rw [MapSS.keys_insert_mem m k v hk]; exact h
  · rw [MapSS.keys_insert_not_mem m k v hk]
    simpa [List.nodup_append] using ⟨h, hk⟩

/-- Error values returned by `poolPropertiesImpl.processLine`
(src/zfs/pool.go lines 80-100): `ErrInvalidOutput`, or the formatted
"unknown pool type" error of the default branch. -/
inductive ProcessError where
  | invalidOutput : ProcessError
  | unknownPoolType : String → ProcessError
  deriving DecidableEq, Repr

/-- Embedding of `poolPropertiesImpl.processLine` (src/zfs/pool.go lines
80-100).  The receiver's accumulated `properties` map is passed and
returned explicitly.  Note that the `PoolIostat` branch, exactly as in the
source, assigns `line[5]` and then `line[6]` both to the key `"bwwrite"`,
and never writes `"bwread"`. -/
def processLine (kind : PoolKind) (pool : String) (line : List String)
    (props : MapSS) : Except ProcessError MapSS :=
  if kind = PoolProps then
    if line.length ≠ 3 ∨ line.getD 0 "" ≠ pool then
      Except.error ProcessError.invalidOutput
    else
      Except.ok (props.insert (line.getD 1 "") (line.getD 2 ""))
  else if kind = PoolIostat then
    if line.length ≠ 7 ∨ line.getD 0 "" ≠ pool then
      Except.error ProcessError.invalidOutput
    else
      Except.ok (((((props.insert "opread" (line.getD 3 "")).insert
        "opwrite" (line.getD 4 "")).insert
        "bwwrite" (line.getD 5 "")).insert
        "bwwrite" (line.getD 6 "")))
  else
    Except.error (ProcessError.unknownPoolType kind)

/-- Embedding of `poolPropertiesImpl.getFieldsPerRecord` (src/zfs/pool.go
lines 103-112): 3 for `PoolProps`, 7 for `PoolIostat`, and 3 in the
default branch. -/
def getFieldsPerRecord (kind : PoolKind) : Nat :=
  if kind = PoolProps then 3
  else if kind = PoolIostat then 7
  else 3

/-- Keys registered in the `poolProperties` property store
(src/collector/pool.go lines 20-138), in source order. -/
def poolPropertiesKeys : List String :=
  ["allocated", "dedupratio", "capacity", "expandsize", "fragmentation",
   "free", "freeing", "health", "leaked", "readonly", "size",
   "opread", "opwrite", "bwread", "bwwrite"]

/-- Modelled from the spec: `propertyStore.find` is declared in collector
code not present under src/; §4.3 specifies an exact-string-key O(1)
lookup returning the descriptor or a not-found error.  `findOk k` records
whether the lookup against the store of src/collector/pool.go succeeds. -/
def findOk (k : String) : Bool := poolPropertiesKeys.contains k

/-- Externally visible calls made by `poolCollector.updatePoolMetrics`
(src/collector/pool.go lines 186-205) for one resource: a warning to the
logging collaborator for an unresolved key, or an invocation of
`property.push` for a key/value pair.  `registered` records whether the
registry lookup for the pushed key had succeeded. -/
inductive Event where
  | warn : String → Event
  | push : Bool → String → String → Event
  deriving DecidableEq, Repr

/-- Embedding of the property loop of `poolCollector.updatePoolMetrics`
(src/collector/pool.go lines 194-202).  For each key/value pair: when the
registry lookup fails a warning is logged, and then — with no `continue`
in the source — `prop.push` is invoked for the pair regardless; a push
error aborts the loop and is returned (modelled as the failing key).
`pushOk` abstracts the success of `property.push`, whose body is outside
src/.  Go map iteration order is unspecified; the accumulated association
list is traversed in insertion order, one admissible order. -/
def processPairs (pushOk : String → String → Bool) :
    List (String × String) → List Event × Option String
  | [] => ([], none)
  | (k, v) :: rest =>
      let registered := findOk k
      let warnEvs : List Event := if registered then [] else [Event.warn k]
      if pushOk k v then
        let res := processPairs pushOk rest
        (warnEvs ++ Event.push registered k v :: res.1, res.2)
      else
        (warnEvs ++ [Event.push registered k v], some k)

/-- Embedding of `poolCollector.updatePoolMetrics` (src/collector/pool.go
lines 186-205): if obtaining the properties failed, the error is returned
at once, with no warning logged and no push invoked; otherwise the
property loop runs. -/
def updatePoolMetrics (pushOk : String → String → Bool)
    (propsResult : Except String MapSS) : List Event × Option String :=
  match propsResult with
  | Except.error e => ([], some e)
  | Except.ok m => processPairs pushOk m

/-- Per-pool unit of work spawned by `poolCollector.update`
(src/collector/pool.go lines 167-175): run `updatePoolMetrics` for the
pool, with `propsOf` giving the outcome of `p.Properties(...)`. -/
def runPool (pushOk : String → String → Bool)
    (propsOf : String → Except String MapSS) (pool : String) :
    List Event × Option String :=
  updatePoolMetrics pushOk (propsOf pool)

/-- Capacity of the error-aggregation channel created by
`poolCollector.update`: `make(chan error, len(pools))`
(src/collector/pool.go line 166). -/
def errChanCapacity (pools : List String) : Nat := pools.length

/-- Errors deposited on the error channel during one pass of
`poolCollector.update`: each per-pool task sends at most one error, and
only when it fails (src/collector/pool.go lines 170-172). -/
def updateErrorsSent (pushOk : String → String → Bool)
    (propsOf : String → Except String MapSS) (pools : List String) :
    List String :=
  pools.filterMap (fun p => (runPool pushOk propsOf p).2)

/-- Metric/warning events written during one pass of `poolCollector.update`:
every task runs to completion (`wg.Wait()`), so every pool's events are on
the output channel, in some interleaving; listed here pool by pool. -/
def updateEvents (pushOk : String → String → Bool)
    (propsOf : String → Except String MapSS) (pools : List String) :
    List Event :=
  pools.flatMap (fun p => (runPool pushOk propsOf p).1)

/-- Embedding of the result of `poolCollector.update`
(src/collector/pool.go lines 164-184): after waiting for all tasks, the
final `select` returns one error received from the channel when any is
available and nil otherwise.  The channel yields deposited errors; which
one is received is scheduling-dependent, and the head of the deposit list
is one admissible choice. -/
def update (pushOk : String → String → Bool)
    (propsOf : String → Except String MapSS) (pools : List String) :
    Option String :=
  (updateErrorsSent pushOk propsOf pools).head?

/-- Embedding of `newPoolCollector` (src/collector/pool.go lines 207-214):
any kind other than `PoolProps` and `PoolIostat` is rejected with an
"unknown pool type" error; the collector value is abstracted to its kind
and configured property list. -/
def newPoolCollector (kind : PoolKind) (props : List String) :
    Except String (PoolKind × List String) :=
  if kind = PoolProps ∨ kind = PoolIostat then Except.ok (kind, props)
  else Except.error ("unknown pool type: " ++ kind)

/-- Modelled from the spec: the integer health-code constants `poolOnline`
… `poolSuspended` are declared in collector code not present under src/
(they are referenced by the health help string, src/collector/pool.go
lines 76-84); §4.4 and §6 fix the assignment online=0 … suspended=6. -/
def poolOnline : Nat := 0

/-- Modelled from the spec: see `poolOnline`. -/
def poolDegraded : Nat := 1

/-- Modelled from the spec: see `poolOnline`. -/
def poolFaulted : Nat := 2

/-- Modelled from the spec: see `poolOnline`. -/
def poolOffline : Nat := 3

/-- Modelled from the spec: see `poolOnline`. -/
def poolUnavail : Nat := 4

/-- Modelled from the spec: see `poolOnline`. -/
def poolRemoved : Nat := 5

/-- Modelled from the spec: see `poolOnline`. -/
def poolSuspended : Nat := 6

/-- Modelled from the spec: `transformHealthCode` is declared in collector
code not present under src/ (it is installed for the `health` key at
src/collector/pool.go line 85); §4.4 specifies mapping the fixed ordered
token set ONLINE, DEGRADED, FAULTED, OFFLINE, UNAVAIL, REMOVED, SUSPENDED
to stable small-integer codes, with any unrecognized token a transform
error. -/
def transformHealthCode (v : String) : Except String Nat :=
  if v = PoolOnline then Except.ok poolOnline
  else if v = PoolDegraded then Except.ok poolDegraded
  else if v = PoolFaulted then Except.ok poolFaulted
  else if v = PoolOffline then Except.ok poolOffline
  else if v = PoolUnavail then Except.ok poolUnavail
  else if v = PoolRemoved then Except.ok poolRemoved
  else if v = PoolSuspended then Except.ok poolSuspended
  else Except.error ("unsupported value for health: " ++ v)

/-- Fixture: per-pool outcomes for a three-pool pass in which pool "B"
fails with a non-zero exit status while "A" and "C" succeed. -/
def abcPropsOf : String → Except String MapSS := fun p =>
  if p = "B" then Except.error "exit status 1"
  else if p = "A" then Except.ok [("free", "1")]
  else Except.ok [("size", "2")]

/-- Fixture: a push collaborator that always succeeds. -/
def pushAlwaysOk : String → String → Bool := fun _ _ => true

/-- C1: as the known field-aliasing defect (spec §9) predicts, on the
well-formed 7-field I/O-statistics line ("tank","-","-","120","80",
"4096","8192") the embedded `processLine` assigns both `line[5]` and
`line[6]` to the key "bwwrite", so the resulting PropertyMap is
{opread:"120", opwrite:"80", bwwrite:"8192"} and has no "bwread" key —
even though "bwread" is a key registered by the very same repository's
property store.  The claimed map {opread:"120", opwrite:"80",
bwread:"4096", bwwrite:"8192"} is therefore not produced. -/
theorem c1_iostat_bwread_never_written :
    processLine PoolIostat "tank" ["tank", "-", "-", "120", "80", "4096", "8192"] [] =
      Except.ok [("opread", "120"), ("opwrite", "80"), ("bwwrite", "8192")] ∧
    MapSS.lookup [("opread", "120"), ("opwrite", "80"), ("bwwrite", "8192")] "bwread" = none ∧
    "bwread" ∈ poolPropertiesKeys :=
  ⟨rfl, rfl, by decide⟩

/-- C4: a well-formed properties-kind line (pool, k, v) whose first field
matches the queried pool is accepted by `processLine`; afterwards the
PropertyMap maps k to v and every other key is unchanged. -/
theorem c4_properties_line_updates_single_key (pool k v k' : String)
    (props : MapSS) (h : k' ≠ k) :
    processLine PoolProps pool [pool, k, v] props =
      Except.ok (props.insert k v) ∧
    (props.insert k v).lookup k = some v ∧
    (props.insert k v).lookup k' = props.lookup k' := by
  refine ⟨?_, MapSS.lookup_insert_self props k v,
    MapSS.lookup_insert_ne props k v k' h⟩
  simp [processLine]

/-- C4 witness: the theorem applied at the concrete line
("tank","free","42") against the map [("size","9")]. -/
theorem c4_witness :
    processLine PoolProps "tank" ["tank", "free", "42"] [("size", "9")] =
      Except.ok (MapSS.insert [("size", "9")] "free" "42") ∧
    (MapSS.insert [("size", "9")] "free" "42").lookup "free" = some "42" ∧
    (MapSS.insert [("size", "9")] "free" "42").lookup "size" =
      MapSS.lookup [("size", "9")] "size" :=
  c4_properties_line_updates_single_key "tank" "free" "42" "size"
    [("size", "9")] (by decide)

/-- C5: a line whose field count differs from the count the ResourceKind
requires (3 for properties, 7 for I/O statistics), or whose first field
differs from the queried pool name, makes `processLine` return the invalid
output error; and when obtaining a resource's properties failed,
`updatePoolMetrics` returns that error at once, emitting no warning and
invoking no push — the accumulated PropertyMap is never read. -/
theorem c5_invalid_line_rejected_map_unused (pool : String)
    (line : List String) (props : MapSS)
    (pushOk : String → String → Bool) (e : String) :
    ((line.length ≠ 3 ∨ line.getD 0 "" ≠ pool) →
      processLine PoolProps pool line props =
        Except.error ProcessError.invalidOutput) ∧
    ((line.length ≠ 7 ∨ line.getD 0 "" ≠ pool) →
      processLine PoolIostat pool line props =
        Except.error ProcessError.invalidOutput) ∧
    updatePoolMetrics pushOk (Except.error e) = ([], some e) := by
  refine ⟨fun hp => ?_, fun hi => ?_, rfl⟩
  · rcases hp with hp | hp <;> [skip; simp at hp] <;> simp [processLine, hp]
  · rcases hi with hi | hi <;> [skip; simp at hi] <;>
      simp [processLine, PoolIostat, PoolProps, hi]

/-- C5 witness: the theorem applied to the 2-field line ("tank","free")
and to a failed properties retrieval with error "exit status 1". -/
theorem c5_witness :
    processLine PoolProps "tank" ["tank", "free"] [] =
      Except.error ProcessError.invalidOutput ∧
    processLine PoolIostat "tank" ["tank", "free"] [] =
      Except.error ProcessError.invalidOutput ∧
    updatePoolMetrics pushAlwaysOk (Except.error "exit status 1") =
      ([], some "exit status 1") :=
  ⟨(c5_invalid_line_rejected_map_unused "tank" ["tank", "free"] []
      pushAlwaysOk "exit status 1").1 (by decide),
   (c5_invalid_line_rejected_map_unused "tank" ["tank", "free"] []
      pushAlwaysOk "exit status 1").2.1 (by decide),
   (c5_invalid_line_rejected_map_unused "tank" ["tank", "free"] []
      pushAlwaysOk "exit status 1").2.2⟩

/-- C6: `newPoolCollector` rejects every kind other than `PoolProps` and
`PoolIostat` with an "unknown pool type" error at construction time, so
no collector value is produced for an unsupported kind. -/
theorem c6_unknown_kind_rejected_at_construction (kind : PoolKind)
    (props : List String) (h : kind ≠ PoolProps) (h' : kind ≠ PoolIostat) :
    newPoolCollector kind props =
      Except.error ("unknown pool type: " ++ kind) := by
  simp [newPoolCollector, h, h']

/-- C6 witness: the theorem applied to the unsupported kind "datasets". -/
theorem c6_witness :
    newPoolCollector "datasets" ["free"] =
      Except.error ("unknown pool type: " ++ "datasets") :=
  c6_unknown_kind_rejected_at_construction "datasets" ["free"]
    (by decide) (by decide)

/-- C10: `getFieldsPerRecord` is total over all kinds: it returns 7 for
`PoolIostat` and 3 for every other kind — `PoolProps` and any
unrecognized kind alike fall into the 3-field default, with no
unsupported-kind error at this interface. -/
theorem c10_getFieldsPerRecord_total (kind : PoolKind)
    (h : kind ≠ PoolIostat) :
    getFieldsPerRecord PoolIostat = 7 ∧ getFieldsPerRecord kind = 3 := by
  constructor
  · simp [getFieldsPerRecord, PoolIostat, PoolProps]
  · by_cases hp : kind = PoolProps
    · simp [getFieldsPerRecord, hp]
    · simp [getFieldsPerRecord, hp, h]

/-- C10 witness: the theorem applied to the unrecognized kind "bogus". -/
theorem c10_witness :
    getFieldsPerRecord PoolIostat = 7 ∧ getFieldsPerRecord "bogus" = 3 :=
  c10_getFieldsPerRecord_total "bogus" (by decide)

/-- C7: the health-code transform maps the seven pool status tokens, in
the fixed order ONLINE, DEGRADED, FAULTED, OFFLINE, UNAVAIL, REMOVED,
SUSPENDED, to the integer codes 0 through 6 respectively, and any token
outside that set is a transform error. -/
theorem c7_health_code_assignment (s : String)
    (h : s ∉ [PoolOnline, PoolDegraded, PoolFaulted, PoolOffline,
      PoolUnavail, PoolRemoved, PoolSuspended]) :
    transformHealthCode PoolOnline = Except.ok 0 ∧
    transformHealthCode PoolDegraded = Except.ok 1 ∧
    transformHealthCode PoolFaulted = Except.ok 2 ∧
    transformHealthCode PoolOffline = Except.ok 3 ∧
    transformHealthCode PoolUnavail = Except.ok 4 ∧
    transformHealthCode PoolRemoved = Except.ok 5 ∧
    transformHealthCode PoolSuspended = Except.ok 6 ∧
    transformHealthCode s =
      Except.error ("unsupported value for health: " ++ s) := by
  simp only [List.mem_cons, List.not_mem_nil, or_false, not_or] at h
  obtain ⟨h1, h2, h3, h4, h5, h6, h7⟩ := h
  refine ⟨rfl, rfl, rfl, rfl, rfl, rfl, rfl, ?_⟩
  simp [transformHealthCode, h1, h2, h3, h4, h5, h6, h7]

/-- C7 witness: the theorem applied to the unknown status token "BOGUS". -/
theorem c7_witness :
    transformHealthCode PoolOnline = Except.ok 0 ∧
    transformHealthCode PoolDegraded = Except.ok 1 ∧
    transformHealthCode PoolFaulted = Except.ok 2 ∧
    transformHealthCode PoolOffline = Except.ok 3 ∧
    transformHealthCode PoolUnavail = Except.ok 4 ∧
    transformHealthCode PoolRemoved = Except.ok 5 ∧
    transformHealthCode PoolSuspended = Except.ok 6 ∧
    transformHealthCode "BOGUS" =
      Except.error ("unsupported value for health: " ++ "BOGUS") :=
  c7_health_code_assignment "BOGUS" (by decide)

/-- C8: processing two properties-kind lines that carry the same key in
order leaves the key bound to the later line's value (last write wins),
and the PropertyMap's keys stay unique. -/
theorem c8_last_write_wins (pool k v₁ v₂ : String) (props m₁ m₂ : MapSS)
    (hnodup : props.keys.Nodup)
    (h₁ : processLine PoolProps pool [pool, k, v₁] props = Except.ok m₁)
    (h₂ : processLine PoolProps pool [pool, k, v₂] m₁ = Except.ok m₂) :
    m₂.lookup k = some v₂ ∧ m₂.keys.Nodup := by
  have e₁ : props.insert k v₁ = m₁ := by simpa [processLine] using h₁
  have e₂ : m₁.insert k v₂ = m₂ := by simpa [processLine] using h₂
  subst e₁
  subst e₂
  exact ⟨MapSS.lookup_insert_self _ k v₂,
    MapSS.keys_insert_nodup _ k v₂ (MapSS.keys_insert_nodup props k v₁ hnodup)⟩

/-- C8 witness: the theorem applied to the two lines ("tank","free","1")
and ("tank","free","2") against the empty map. -/
theorem c8_witness :
    MapSS.lookup [("free", "2")] "free" = some "2" ∧
    (MapSS.keys [("free", "2")]).Nodup :=
  c8_last_write_wins "tank" "free" "1" "2" [] [("free", "1")] [("free", "2")]
    (by decide) (by rfl) (by rfl)

theorem processPairs_cons_ok (pushOk : String → String → Bool) (k v : String)
    (rest : List (String × String)) (h : pushOk k v = true) :
    processPairs pushOk ((k, v) :: rest) =
      ((if findOk k then [] else [Event.warn k]) ++
        Event.push (findOk k) k v :: (processPairs pushOk rest).1,
       (processPairs pushOk rest).2) := by
  simp [processPairs, h]

theorem processPairs_none_of_all_ok (pushOk : String → String → Bool)
    (hall : ∀ a b, pushOk a b = true) (m : List (String × String)) :
    (processPairs pushOk m).2 = none := by
  induction m with
  | nil => rfl
  | cons p rest ih =>
      obtain ⟨k, v⟩ := p
      rw [processPairs_cons_ok pushOk k v rest (hall k v)]
      exact ih

theorem processPairs_push_mem (pushOk : String → String → Bool)
    (hall : ∀ a b, pushOk a b = true) (m : List (String × String))
    (k v : String) (hmem : (k, v) ∈ m) :
    Event.push (findOk k) k v ∈ (processPairs pushOk m).1 := by
  induction m with
  | nil => simp at hmem
  | cons p rest ih =>
      obtain ⟨k₀, v₀⟩ := p
      rw [processPairs_cons_ok pushOk k₀ v₀ rest (hall k₀ v₀)]
      rcases List.mem_cons.mp hmem with h | h
      · cases h
        simp
      · simp [ih h]

theorem processPairs_warn_mem (pushOk : String → String → Bool)
    (hall : ∀ a b, pushOk a b = true) (m : List (String × String))
    (k v : String) (hmem : (k, v) ∈ m) (hreg : findOk k = false) :
    Event.warn k ∈ (processPairs pushOk m).1 := by
  induction m with
  | nil => simp at hmem
  | cons p rest ih =>
      obtain ⟨k₀, v₀⟩ := p
      rw [processPairs_cons_ok pushOk k₀ v₀ rest (hall k₀ v₀)]
      rcases List.mem_cons.mp hmem with h | h
      · cases h
        simp [hreg]
      · simp [ih h]

theorem updateErrorsSent_nil_of_all_ok (pushOk : String → String → Bool)
    (propsOf : String → Except String MapSS) (pools : List String)
    (h : ∀ p ∈ pools, (runPool pushOk propsOf p).2 = none) :
    updateErrorsSent pushOk propsOf pools = [] := by
  induction pools with
  | nil => rfl
  | cons q rest ih =>
      have hq := h q (List.mem_cons_self q rest)
      have hr := ih (fun p hp => h p (List.mem_cons_of_mem q hp))
      simp only [updateErrorsSent, List.filterMap_cons, hq] at hr ⊢
      exact hr

theorem updateErrorsSent_mem (pushOk : String → String → Bool)
    (propsOf : String → Except String MapSS) (pools : List String)
    (p e : String) (hp : p ∈ pools)
    (he : (runPool pushOk propsOf p).2 = some e) :
    e ∈ updateErrorsSent pushOk propsOf pools := by
  simp only [updateErrorsSent, List.mem_filterMap]
  exact ⟨p, hp, he⟩

theorem updateErrorsSent_sound (pushOk : String → String → Bool)
    (propsOf : String → Except String MapSS) (pools : List String)
    (e : String) (he : e ∈ updateErrorsSent pushOk propsOf pools) :
    ∃ q ∈ pools, (runPool pushOk propsOf q).2 = some e := by
  simp only [updateErrorsSent, List.mem_filterMap] at he
  obtain ⟨q, hq, hqe⟩ := he
  exact ⟨q, hq, hqe⟩

/-- C2 counterexample: on the PropertyMap holding only the unregistered
key "bogus", `updatePoolMetrics` does not skip the pair after warning:
its event trace is the warning followed by a push invocation for
("bogus","1") — the source has no `continue` after the warning, so the
unresolved pair is handed to push rather than skipped. -/
theorem c2_counterexample :
    (updatePoolMetrics pushAlwaysOk (Except.ok [("bogus", "1")])).1 =
      [Event.warn "bogus", Event.push false "bogus" "1"] ∧
    Event.push false "bogus" "1" ∈
      (updatePoolMetrics pushAlwaysOk (Except.ok [("bogus", "1")])).1 := by
  constructor
  · rfl
  · decide

/-- C2 amended: a property key missing from the registry is logged as a
warning, but the key/value pair is not skipped — `updatePoolMetrics`
still invokes push for it with the descriptor value returned by the
failed lookup; provided every push invocation succeeds, every pair of the
resource receives its push invocation and the resource is not aborted. -/
theorem c2_unresolved_key_warned_but_pushed (pushOk : String → String → Bool)
    (m : MapSS) (k v : String) (hall : ∀ a b, pushOk a b = true)
    (hmem : (k, v) ∈ m) (hreg : findOk k = false) :
    Event.warn k ∈ (updatePoolMetrics pushOk (Except.ok m)).1 ∧
    Event.push false k v ∈ (updatePoolMetrics pushOk (Except.ok m)).1 ∧
    (∀ p ∈ m, Event.push (findOk p.1) p.1 p.2 ∈
      (updatePoolMetrics pushOk (Except.ok m)).1) ∧
    (updatePoolMetrics pushOk (Except.ok m)).2 = none := by
  refine ⟨processPairs_warn_mem pushOk hall m k v hmem hreg, ?_,
    fun p hp => processPairs_push_mem pushOk hall m p.1 p.2 (by simpa using hp),
    processPairs_none_of_all_ok pushOk hall m⟩
  have h := processPairs_push_mem pushOk hall m k v hmem
  rwa [hreg] at h

/-- C2 witness: the amended theorem applied to the map holding the
unregistered key "bogus" next to the registered key "free". -/
theorem c2_witness :
    Event.warn "bogus" ∈
      (updatePoolMetrics pushAlwaysOk
        (Except.ok [("bogus", "1"), ("free", "7")])).1 ∧
    Event.push false "bogus" "1" ∈
      (updatePoolMetrics pushAlwaysOk
        (Except.ok [("bogus", "1"), ("free", "7")])).1 ∧
    (∀ p ∈ [("bogus", "1"), ("free", "7")],
      Event.push (findOk p.1) p.1 p.2 ∈
        (updatePoolMetrics pushAlwaysOk
          (Except.ok [("bogus", "1"), ("free", "7")])).1) ∧
    (updatePoolMetrics pushAlwaysOk
      (Except.ok [("bogus", "1"), ("free", "7")])).2 = none :=
  c2_unresolved_key_warned_but_pushed pushAlwaysOk
    [("bogus", "1"), ("free", "7")] "bogus" "1"
    (fun _ _ => rfl) (by decide) (by decide)

/-- C3: over any list of pools, `update` returns nil when every per-pool
unit of work succeeds; when some pool fails, it returns exactly one error
and that error is one of the per-pool failures; and every pool's emitted
events — in particular those of the successful pools — are present in the
pass's output stream. -/
theorem c3_one_error_partial_delivery (pushOk : String → String → Bool)
    (propsOf : String → Except String MapSS) (pools : List String) :
    ((∀ p ∈ pools, (runPool pushOk propsOf p).2 = none) →
      update pushOk propsOf pools = none) ∧
    (∀ p ∈ pools, ∀ e, (runPool pushOk propsOf p).2 = some e →
      ∃ e', update pushOk propsOf pools = some e' ∧
        ∃ q ∈ pools, (runPool pushOk propsOf q).2 = some e') ∧
    (∀ p ∈ pools, ∀ ev ∈ (runPool pushOk propsOf p).1,
      ev ∈ updateEvents pushOk propsOf pools) := by
  refine ⟨fun h => ?_, fun p hp e he => ?_, fun p hp ev hev => ?_⟩
  · unfold update
    rw [updateErrorsSent_nil_of_all_ok pushOk propsOf pools h]
    rfl
  · have hmem := updateErrorsSent_mem pushOk propsOf pools p e hp he
    cases hl : updateErrorsSent pushOk propsOf pools with
    | nil => rw [hl] at hmem; simp at hmem
    | cons e' rest =>
        refine ⟨e', ?_, ?_⟩
        · unfold update; rw [hl]; rfl
        · exact updateErrorsSent_sound pushOk propsOf pools e'
            (by rw [hl]; exact List.mem_cons_self e' rest)
  · unfold updateEvents
    simp only [List.mem_flatMap]
    exact ⟨p, hp, hev⟩

/-- C3 witness: the theorem applied to pools ["A","B","C"] where "B"
fails with "exit status 1" while "A" and "C" succeed: the pass returns
one error drawn from the failures, and the metrics pushed for "A" and
"C" are present in the output stream. -/
theorem c3_witness :
    (∃ e', update pushAlwaysOk abcPropsOf ["A", "B", "C"] = some e' ∧
      ∃ q ∈ ["A", "B", "C"],
        (runPool pushAlwaysOk abcPropsOf q).2 = some e') ∧
    Event.push true "free" "1" ∈
      updateEvents pushAlwaysOk abcPropsOf ["A", "B", "C"] ∧
    Event.push true "size" "2" ∈
      updateEvents pushAlwaysOk abcPropsOf ["A", "B", "C"] :=
  ⟨(c3_one_error_partial_delivery pushAlwaysOk abcPropsOf
      ["A", "B", "C"]).2.1 "B" (by decide) "exit status 1" (by rfl),
   (c3_one_error_partial_delivery pushAlwaysOk abcPropsOf
      ["A", "B", "C"]).2.2 "A" (by decide)
      (Event.push true "free" "1") (by decide),
   (c3_one_error_partial_delivery pushAlwaysOk abcPropsOf
      ["A", "B", "C"]).2.2 "C" (by decide)
      (Event.push true "size" "2") (by decide)⟩

/-- C9: the error-aggregation channel of `poolCollector.update` is created
with capacity `len(pools)`, and the number of errors deposited during a
pass — at most one per pool, sent only on failure — never exceeds that
capacity, so no depositing task can block. -/
theorem c9_errchan_capacity_suffices (pushOk : String → String → Bool)
    (propsOf : String → Except String MapSS) (pools : List String) :
    errChanCapacity pools = pools.length ∧
    (updateErrorsSent pushOk propsOf pools).length ≤ errChanCapacity pools := by
  refine ⟨rfl, ?_⟩
  unfold updateErrorsSent errChanCapacity
  exact List.length_filterMap_le _ _
